import Mathlib

/-!
Shallow embedding of `src/canvas.rs` from plotters-offscreen-canvas.

The backend translates abstract drawing primitives (pixel, line, text) into
calls on a 2D rendering context.  We embed each drawing method as a pure
function that returns its result together with the list of calls it makes on
the context (`CanvasCall`).  Fallible context operations (`translate`,
`rotate`, `fill_text`) are driven by an environment `CtxEnv` that says
whether each of them succeeds and, on failure, which JS value it throws.

Numeric conventions:
- `u8` color components are `Nat`; `i32` coordinates are `Int`; `f64`
  coordinates passed to the context are `ℚ` (every value reaching the
  context here is an exact small integer or the constant 1.0, so rationals
  are faithful).
- Rotation angles are `f64` values of the form `q * π`; we carry the exact
  rational coefficient `q` (the code computes `degree = m / 100.0 * PI`, so
  the coefficient is `m / 100`; comparisons with `0.0` agree since `π ≠ 0`).
- Rust's `format!("{}", x)` rendering of an `f64` (the alpha channel, the
  font size) is an uninterpreted string field carried alongside the value.
-/

namespace PlottersOffscreen

/-- Model of `plotters_backend::BackendColor`: `rgb: (u8, u8, u8)` and
`alpha: f64`.  `alphaStr` is the `Display` rendering of the alpha that
`format!` would interpolate into the rgba string. -/
structure BackendColor where
  rgb : Nat × Nat × Nat
  alpha : ℚ
  alphaStr : String
deriving DecidableEq

/-- Model of `plotters_backend::FontTransform`. -/
inductive FontTransform where
  | None
  | Rotate90
  | Rotate180
  | Rotate270
deriving DecidableEq

/-- Model of `plotters_backend::text_anchor::HPos`. -/
inductive HPos where
  | Left
  | Right
  | Center
deriving DecidableEq

/-- Model of a line style (`impl BackendStyle`): a color and a `u32` stroke
width. -/
structure ShapeStyle where
  color : BackendColor
  stroke_width : Nat
deriving DecidableEq

/-- Model of `plotters_backend::BackendTextStyle`: color, transform,
anchor, and the pieces interpolated into the font string (`style().as_str()`,
the `Display` rendering of `size()`, `family().as_str()`). -/
structure TextStyle where
  color : BackendColor
  transform : FontTransform
  h_pos : HPos
  font_style : String
  sizeStr : String
  family : String
deriving DecidableEq

/-- A JS exception value: all the code observes of it is the result of
`JSON::stringify`, which may itself fail (`none`). -/
structure JsVal where
  stringify : Option String
deriving DecidableEq

/-- Model of `CanvasError(String)` (src/canvas.rs line 12). -/
structure CanvasError where
  msg : String
deriving DecidableEq

/-- Model of `plotters_backend::DrawingErrorKind` specialized to
`CanvasError`. -/
inductive DrawingErrorKind where
  | DrawingError (e : CanvasError)
  | FontError (msg : String)
deriving DecidableEq

/-- `make_canvas_color` (src/canvas.rs lines 52-56):
`format!("rgba({},{},{},{}", r, g, b, a)` — the source's format string has
no closing parenthesis, and this embedding reproduces that. -/
def make_canvas_color (color : BackendColor) : String :=
  "rgba(" ++ toString color.rgb.1 ++ "," ++ toString color.rgb.2.1 ++ ","
    ++ toString color.rgb.2.2 ++ "," ++ color.alphaStr

/-- `error_cast` (src/canvas.rs lines 58-64): wrap a JS failure into
`DrawingErrorKind::DrawingError(CanvasError(stringify(e) or "unknown"))`. -/
def error_cast (e : JsVal) : DrawingErrorKind :=
  DrawingErrorKind.DrawingError ⟨Option.getD e.stringify "unknown"⟩

/-- One call made on the `OffscreenCanvasRenderingContext2d`.  The fallible
calls (`translate`, `rotate`, `fillText`) record their outcome: `none` for
success, `some e` when the context threw `e`.  `rotate` records the exact
rational coefficient of π of its `f64` argument. -/
inductive CanvasCall where
  | setFillStyle (style : String)
  | fillRect (x y w h : ℚ)
  | setStrokeStyle (style : String)
  | setLineWidth (w : ℚ)
  | beginPath
  | moveTo (x y : ℚ)
  | lineTo (x y : ℚ)
  | stroke
  | save
  | translate (x y : ℚ) (failure : Option JsVal)
  | rotate (angleCoeff : ℚ) (failure : Option JsVal)
  | setTextAlign (align : String)
  | setFont (font : String)
  | fillText (text : String) (x y : ℚ) (failure : Option JsVal)
  | restore
deriving DecidableEq

/-- Environment for one `draw_text` call: the outcome each fallible context
operation would have if invoked (`none` = success). -/
structure CtxEnv where
  translateErr : Option JsVal
  rotateErr : Option JsVal
  fillTextErr : Option JsVal
deriving DecidableEq

/-- The degree value matched from the transform in `draw_text`
(src/canvas.rs lines 129-133). -/
def transformDegrees (t : FontTransform) : ℚ :=
  match t with
  | FontTransform.None => 0
  | FontTransform.Rotate90 => 90
  | FontTransform.Rotate180 => 180
  | FontTransform.Rotate270 => 270

/-- The coefficient of π in the `degree` variable of `draw_text`
(src/canvas.rs line 134): the source computes `m / 100.0 * PI`, so the
coefficient is `m / 100`. -/
def draw_text_angle_coeff (t : FontTransform) : ℚ :=
  transformDegrees t / 100

/-- The enum's true angle in radians as a coefficient of π, following the
spec's words: the mapped degree value converted to radians by multiplying
by π/180 (so the coefficient of π is `m / 180`).  This definition follows
the SPEC, for comparison with `draw_text_angle_coeff` from the source. -/
def spec_true_angle_coeff (t : FontTransform) : ℚ :=
  transformDegrees t / 180

/-- The text-align string chosen from the anchor (src/canvas.rs 146-150). -/
def textAlignOf (h : HPos) : String :=
  match h with
  | HPos.Left => "start"
  | HPos.Right => "end"
  | HPos.Center => "center"

/-- The font string `format!("{} {}px {}", style, size, family)`
(src/canvas.rs lines 155-160). -/
def fontString (style : TextStyle) : String :=
  style.font_style ++ " " ++ style.sizeStr ++ "px " ++ style.family

/-- `set_line_style` (src/canvas.rs lines 45-49): set stroke style to the
serialized color, then set line width to `stroke_width as f64`. -/
def set_line_style (style : ShapeStyle) : List CanvasCall :=
  [CanvasCall.setStrokeStyle (make_canvas_color style.color),
   CanvasCall.setLineWidth (style.stroke_width : ℚ)]

/-- `draw_pixel` (src/canvas.rs lines 81-96). -/
def draw_pixel (point : Int × Int) (style : BackendColor) :
    Except DrawingErrorKind Unit × List CanvasCall :=
  if style.alpha = 0 then
    (Except.ok (), [])
  else
    (Except.ok (),
     [CanvasCall.setFillStyle (make_canvas_color style),
      CanvasCall.fillRect (point.1 : ℚ) (point.2 : ℚ) 1 1])

/-- `draw_line` (src/canvas.rs lines 98-114). -/
def draw_line (p0 p1 : Int × Int) (style : ShapeStyle) :
    Except DrawingErrorKind Unit × List CanvasCall :=
  if style.color.alpha = 0 then
    (Except.ok (), [])
  else
    (Except.ok (),
     set_line_style style ++
       [CanvasCall.beginPath,
        CanvasCall.moveTo (p0.1 : ℚ) (p0.2 : ℚ),
        CanvasCall.lineTo (p1.1 : ℚ) (p1.2 : ℚ),
        CanvasCall.stroke])

/-- `draw_text` (src/canvas.rs lines 116-170).  Control flow is transcribed
directly: the zero-alpha early return; the `degree != 0.0` branch doing
`save`, `translate` (fallible), `rotate` (fallible) and resetting `(x, y)`
to `(0, 0)`; then `set_text_align`, `set_fill_style`, `set_font`,
`fill_text` (fallible); and `restore` only when `degree != 0.0`.  A fallible
call that fails maps its error through `error_cast` and returns early (the
`?` operator), so later calls do not happen. -/
def draw_text (env : CtxEnv) (text : String) (style : TextStyle)
    (pos : Int × Int) : Except DrawingErrorKind Unit × List CanvasCall :=
  let color := style.color
  if color.alpha = 0 then
    (Except.ok (), [])
  else
    let degree := draw_text_angle_coeff style.transform
    if degree ≠ 0 then
      match env.translateErr with
      | some e =>
        (Except.error (error_cast e),
         [CanvasCall.save,
          CanvasCall.translate (pos.1 : ℚ) (pos.2 : ℚ) (some e)])
      | none =>
        match env.rotateErr with
        | some e =>
          (Except.error (error_cast e),
           [CanvasCall.save,
            CanvasCall.translate (pos.1 : ℚ) (pos.2 : ℚ) none,
            CanvasCall.rotate degree (some e)])
        | none =>
          match env.fillTextErr with
          | some e =>
            (Except.error (error_cast e),
             [CanvasCall.save,
              CanvasCall.translate (pos.1 : ℚ) (pos.2 : ℚ) none,
              CanvasCall.rotate degree none,
              CanvasCall.setTextAlign (textAlignOf style.h_pos),
              CanvasCall.setFillStyle (make_canvas_color color),
              CanvasCall.setFont (fontString style),
              CanvasCall.fillText text 0 0 (some e)])
          | none =>
            (Except.ok (),
             [CanvasCall.save,
              CanvasCall.translate (pos.1 : ℚ) (pos.2 : ℚ) none,
              CanvasCall.rotate degree none,
              CanvasCall.setTextAlign (textAlignOf style.h_pos),
              CanvasCall.setFillStyle (make_canvas_color color),
              CanvasCall.setFont (fontString style),
              CanvasCall.fillText text 0 0 none,
              CanvasCall.restore])
    else
      match env.fillTextErr with
      | some e =>
        (Except.error (error_cast e),
         [CanvasCall.setTextAlign (textAlignOf style.h_pos),
          CanvasCall.setFillStyle (make_canvas_color color),
          CanvasCall.setFont (fontString style),
          CanvasCall.fillText text (pos.1 : ℚ) (pos.2 : ℚ) (some e)])
      | none =>
        (Except.ok (),
         [CanvasCall.setTextAlign (textAlignOf style.h_pos),
          CanvasCall.setFillStyle (make_canvas_color color),
          CanvasCall.setFont (fontString style),
          CanvasCall.fillText text (pos.1 : ℚ) (pos.2 : ℚ) none])

/-- Outcome of `canvas.get_context("2d")` followed by the downcast in
`init_backend` (src/canvas.rs lines 29-33): the call may return `Err`,
`Ok(None)`, or `Ok(Some(object))` where the object downcasts to
`OffscreenCanvasRenderingContext2d` iff `isContext2d`. -/
inductive GetContextOutcome where
  | err
  | missing
  | obj (isContext2d : Bool)
deriving DecidableEq

/-- Model of `web_sys::OffscreenCanvas`: its dimensions and what
`get_context("2d")` yields on it. -/
structure OffscreenCanvas where
  width : Nat
  height : Nat
  context2d : GetContextOutcome
deriving DecidableEq

/-- Model of `OffscreenCanvasBackend`: the bound canvas and the derived
context, represented by the list of calls made on it so far. -/
structure OffscreenCanvasBackend where
  canvas : OffscreenCanvas
  ctxTrace : List CanvasCall
deriving DecidableEq

/-- `init_backend` (src/canvas.rs lines 29-33):
`canvas.get_context("2d").ok()??.dyn_into().ok()?` — any of `Err`, absent,
or a failed downcast yields `None`. -/
def init_backend (canvas : OffscreenCanvas) : Option OffscreenCanvasBackend :=
  match canvas.context2d with
  | GetContextOutcome.obj true => some ⟨canvas, []⟩
  | _ => none

/-- `OffscreenCanvasBackend::new` (src/canvas.rs lines 37-39). -/
def OffscreenCanvasBackend.new (canvas : OffscreenCanvas) :
    Option OffscreenCanvasBackend :=
  init_backend canvas

/-- `get_size` (src/canvas.rs lines 77-79). -/
def get_size (b : OffscreenCanvasBackend) : Nat × Nat :=
  (b.canvas.width, b.canvas.height)

/-- One abstract drawing call made through the `DrawingBackend` trait. -/
inductive DrawOp where
  | pixel (point : Int × Int) (style : BackendColor)
  | line (p0 p1 : Int × Int) (style : ShapeStyle)
  | text (env : CtxEnv) (s : String) (style : TextStyle) (pos : Int × Int)

/-- Apply one drawing call to a backend: the canvas binding is untouched and
the calls the operation makes on the context are appended to the context
trace. -/
def applyOp (b : OffscreenCanvasBackend) (op : DrawOp) : OffscreenCanvasBackend :=
  match op with
  | DrawOp.pixel p s => ⟨b.canvas, b.ctxTrace ++ (draw_pixel p s).2⟩
  | DrawOp.line p0 p1 s => ⟨b.canvas, b.ctxTrace ++ (draw_line p0 p1 s).2⟩
  | DrawOp.text env t s pos => ⟨b.canvas, b.ctxTrace ++ (draw_text env t s pos).2⟩

/-- Does this call belong to the transform/text group
{save, translate, rotate, fillText, restore}? -/
def isTransformOrTextCall (c : CanvasCall) : Bool :=
  match c with
  | CanvasCall.save => true
  | CanvasCall.translate _ _ _ => true
  | CanvasCall.rotate _ _ => true
  | CanvasCall.fillText _ _ _ _ => true
  | CanvasCall.restore => true
  | _ => false

/-- The JS failure recorded on a call, when the call is one of the fallible
operations (`translate`, `rotate`, `fill_text`) and it failed. -/
def callFailure (c : CanvasCall) : Option JsVal :=
  match c with
  | CanvasCall.translate _ _ f => f
  | CanvasCall.rotate _ f => f
  | CanvasCall.fillText _ _ _ f => f
  | _ => none

end PlottersOffscreen

namespace PlottersOffscreen

/-- Sample opaque color used by witnesses: rgb (0,0,0), alpha 1. -/
def sampleColor : BackendColor := ⟨(0, 0, 0), 1, "1"⟩

/-- Sample half-transparent color used by witnesses. -/
def sampleHalfColor : BackendColor := ⟨(0, 0, 0), 1/2, "0.5"⟩

/-- Sample text style with a 90° rotation, used by witnesses. -/
def sampleRotStyle : TextStyle :=
  ⟨sampleColor, FontTransform.Rotate90, HPos.Left, "normal", "12", "serif"⟩

/-- Sample text style with no rotation, used by witnesses. -/
def samplePlainStyle : TextStyle :=
  ⟨sampleColor, FontTransform.None, HPos.Left, "normal", "12", "serif"⟩

/-- Claim C1 — counter-evidence against the claim as stated: at the color
rgb = (255,0,0) with alpha 0.5, the color-to-string conversion of the source
yields "rgba(255,0,0,0.5" with no closing parenthesis, and in particular not
the CSS-style string "rgba(255,0,0,0.5)" that the claim requires; the format
string at src/canvas.rs line 55 omits the closing parenthesis. -/
theorem make_canvas_color_omits_closing_paren :
    make_canvas_color ⟨(255, 0, 0), 1/2, "0.5"⟩ = "rgba(255,0,0,0.5" ∧
    make_canvas_color ⟨(255, 0, 0), 1/2, "0.5"⟩ ≠ "rgba(255,0,0,0.5)" := by
  exact ⟨rfl, by decide⟩

/-- Claim C2 — counter-evidence against the claim as stated: for Rotate90
the source computes the angle (90/100)·π (the match result is divided by
100, not 180, before multiplying by π), whereas the enum's true angle in
radians is (90/180)·π = π/2; the two coefficients of π differ. -/
theorem draw_text_angle_not_true_radians :
    draw_text_angle_coeff FontTransform.Rotate90 = 9/10 ∧
    spec_true_angle_coeff FontTransform.Rotate90 = 1/2 ∧
    draw_text_angle_coeff FontTransform.Rotate90 ≠
      spec_true_angle_coeff FontTransform.Rotate90 := by
  refine ⟨?_, ?_, ?_⟩ <;>
    norm_num [draw_text_angle_coeff, spec_true_angle_coeff, transformDegrees]

/-- Claim C3: whenever the color's alpha is exactly 0, each of draw_pixel,
draw_line and draw_text returns Ok and makes no call at all on the rendering
context. -/
theorem zero_alpha_draws_nothing (point p0 p1 pos : Int × Int)
    (c : BackendColor) (ls : ShapeStyle) (ts : TextStyle)
    (env : CtxEnv) (text : String)
    (hc : c.alpha = 0) (hl : ls.color.alpha = 0) (ht : ts.color.alpha = 0) :
    draw_pixel point c = (Except.ok (), []) ∧
    draw_line p0 p1 ls = (Except.ok (), []) ∧
    draw_text env text ts pos = (Except.ok (), []) := by
  refine ⟨?_, ?_, ?_⟩ <;> simp [draw_pixel, draw_line, draw_text, hc, hl, ht]

/-- Witness for C3 at concrete fully-transparent inputs. -/
theorem zero_alpha_draws_nothing_witness :
    draw_pixel (1, 2) ⟨(0, 0, 0), 0, "0"⟩ = (Except.ok (), []) ∧
    draw_line (0, 0) (3, 4) ⟨⟨(0, 0, 0), 0, "0"⟩, 2⟩ = (Except.ok (), []) ∧
    draw_text ⟨none, none, none⟩ "hi"
      ⟨⟨(0, 0, 0), 0, "0"⟩, FontTransform.Rotate90, HPos.Left, "normal", "12", "serif"⟩
      (5, 6) = (Except.ok (), []) :=
  zero_alpha_draws_nothing (1, 2) (0, 0) (3, 4) (5, 6) _ _ _ _ "hi" rfl rfl rfl

/-- Claim C4: for any pixel coordinate and any color whose alpha is not
exactly 0 (including alphas outside (0,1]), draw_pixel sets the fill style
to the serialized color, then calls fill_rect exactly once with arguments
(x, y, 1.0, 1.0), and returns Ok. -/
theorem draw_pixel_nonzero_alpha (point : Int × Int) (c : BackendColor)
    (h : c.alpha ≠ 0) :
    draw_pixel point c =
      (Except.ok (),
       [CanvasCall.setFillStyle (make_canvas_color c),
        CanvasCall.fillRect (point.1 : ℚ) (point.2 : ℚ) 1 1]) := by
  simp [draw_pixel, h]

/-- Witness for C4: the spec scenario, pixel at (50,50) with alpha 0.5. -/
theorem draw_pixel_nonzero_alpha_witness :
    (1/2 : ℚ) ≠ 0 ∧
    draw_pixel (50, 50) sampleHalfColor =
      (Except.ok (),
       [CanvasCall.setFillStyle (make_canvas_color sampleHalfColor),
        CanvasCall.fillRect 50 50 1 1]) :=
  ⟨by norm_num, draw_pixel_nonzero_alpha (50, 50) sampleHalfColor (by norm_num [sampleHalfColor])⟩

/-- Claim C5: for any endpoints and any style whose color has non-zero
alpha, draw_line sets the stroke style to the serialized color and the line
width to the style's stroke width (each exactly once), then performs exactly
one begin_path → move_to(from) → line_to(to) → stroke sequence, and returns
Ok. -/
theorem draw_line_nonzero_alpha (p0 p1 : Int × Int) (s : ShapeStyle)
    (h : s.color.alpha ≠ 0) :
    draw_line p0 p1 s =
      (Except.ok (),
       [CanvasCall.setStrokeStyle (make_canvas_color s.color),
        CanvasCall.setLineWidth (s.stroke_width : ℚ),
        CanvasCall.beginPath,
        CanvasCall.moveTo (p0.1 : ℚ) (p0.2 : ℚ),
        CanvasCall.lineTo (p1.1 : ℚ) (p1.2 : ℚ),
        CanvasCall.stroke]) := by
  simp [draw_line, set_line_style, h]

/-- Witness for C5: the spec scenario, a line from (0,0) to (10,10) with
stroke width 2. -/
theorem draw_line_nonzero_alpha_witness :
    (sampleColor.alpha ≠ 0) ∧
    draw_line (0, 0) (10, 10) ⟨sampleColor, 2⟩ =
      (Except.ok (),
       [CanvasCall.setStrokeStyle (make_canvas_color sampleColor),
        CanvasCall.setLineWidth 2,
        CanvasCall.beginPath,
        CanvasCall.moveTo 0 0,
        CanvasCall.lineTo 10 10,
        CanvasCall.stroke]) :=
  ⟨by norm_num [sampleColor],
   draw_line_nonzero_alpha (0, 0) (10, 10) ⟨sampleColor, 2⟩ (by norm_num [sampleColor])⟩

end PlottersOffscreen

namespace PlottersOffscreen

/-- For every rotation other than None, the `degree` computed in draw_text
is non-zero (its coefficient of π is non-zero). -/
theorem angle_coeff_ne_zero (t : FontTransform) (h : t ≠ FontTransform.None) :
    draw_text_angle_coeff t ≠ 0 := by
  cases t with
  | None => exact absurd rfl h
  | Rotate90 => norm_num [draw_text_angle_coeff, transformDegrees]
  | Rotate180 => norm_num [draw_text_angle_coeff, transformDegrees]
  | Rotate270 => norm_num [draw_text_angle_coeff, transformDegrees]

/-- Claim C6: in a successful draw_text call with non-zero alpha, a rotated
transform yields the call sequence save → translate(pos) → rotate(angle) →
fill_text(text, 0, 0) → restore on the transform/text operations, while the
None transform makes no save/translate/rotate/restore call and invokes
fill_text directly at the given position. -/
theorem draw_text_transform_sequence (env : CtxEnv) (text : String)
    (ts : TextStyle) (pos : Int × Int)
    (ha : ts.color.alpha ≠ 0)
    (h1 : env.translateErr = none) (h2 : env.rotateErr = none)
    (h3 : env.fillTextErr = none) :
    (ts.transform ≠ FontTransform.None →
      (draw_text env text ts pos).1 = Except.ok () ∧
      ((draw_text env text ts pos).2).filter isTransformOrTextCall =
        [CanvasCall.save,
         CanvasCall.translate (pos.1 : ℚ) (pos.2 : ℚ) none,
         CanvasCall.rotate (draw_text_angle_coeff ts.transform) none,
         CanvasCall.fillText text 0 0 none,
         CanvasCall.restore]) ∧
    (ts.transform = FontTransform.None →
      (draw_text env text ts pos).1 = Except.ok () ∧
      ((draw_text env text ts pos).2).filter isTransformOrTextCall =
        [CanvasCall.fillText text (pos.1 : ℚ) (pos.2 : ℚ) none]) := by
  constructor
  · intro hne
    have hd : draw_text_angle_coeff ts.transform ≠ 0 :=
      angle_coeff_ne_zero ts.transform hne
    constructor
    · simp [draw_text, ha, hd, h1, h2, h3]
    · simp [draw_text, ha, hd, h1, h2, h3, isTransformOrTextCall, List.filter]
  · intro heq
    have hd : draw_text_angle_coeff ts.transform = 0 := by
      simp [heq, draw_text_angle_coeff, transformDegrees]
    constructor
    · simp [draw_text, ha, hd, h3]
    · simp [draw_text, ha, hd, h3, isTransformOrTextCall, List.filter]

/-- Witness for C6: a Rotate90 text draw at (3,4) with no failures. -/
theorem draw_text_transform_sequence_witness :
    sampleRotStyle.transform ≠ FontTransform.None ∧
    ((draw_text ⟨none, none, none⟩ "hi" sampleRotStyle ((3 : Int), (4 : Int))).1 =
        Except.ok () ∧
      ((draw_text ⟨none, none, none⟩ "hi" sampleRotStyle ((3 : Int), (4 : Int))).2).filter
          isTransformOrTextCall =
        [CanvasCall.save,
         CanvasCall.translate (((3 : Int), (4 : Int)).1 : ℚ) (((3 : Int), (4 : Int)).2 : ℚ) none,
         CanvasCall.rotate (draw_text_angle_coeff sampleRotStyle.transform) none,
         CanvasCall.fillText "hi" 0 0 none,
         CanvasCall.restore]) :=
  ⟨by decide,
   (draw_text_transform_sequence ⟨none, none, none⟩ "hi" sampleRotStyle
      ((3 : Int), (4 : Int)) (by norm_num [sampleRotStyle, sampleColor])
      rfl rfl rfl).1 (by decide)⟩

/-- Claim C9: draw_text returns an error exactly when one of the fallible
context operations it performed (translate, rotate, fill_text) failed, and
the returned error is DrawingErrorKind.DrawingError carrying a CanvasError
whose string is the JSON serialization of the thrown value, or "unknown"
when that serialization itself fails. -/
theorem draw_text_error_iff (env : CtxEnv) (text : String) (ts : TextStyle)
    (pos : Int × Int) :
    ((∃ ek, (draw_text env text ts pos).1 = Except.error ek) ↔
      ∃ c ∈ (draw_text env text ts pos).2, callFailure c ≠ none) ∧
    (∀ ek, (draw_text env text ts pos).1 = Except.error ek →
      ∃ e, (∃ c ∈ (draw_text env text ts pos).2, callFailure c = some e) ∧
        ek = DrawingErrorKind.DrawingError ⟨Option.getD e.stringify "unknown"⟩) := by
  by_cases ha : ts.color.alpha = 0
  · simp [draw_text, ha]
  · by_cases hd : draw_text_angle_coeff ts.transform = 0
    · cases hf : env.fillTextErr with
      | none => simp [draw_text, ha, hd, hf, callFailure]
      | some e => simp [draw_text, ha, hd, hf, callFailure, error_cast]
    · cases htr : env.translateErr with
      | some e => simp [draw_text, ha, hd, htr, callFailure, error_cast]
      | none =>
        cases hr : env.rotateErr with
        | some e => simp [draw_text, ha, hd, htr, hr, callFailure, error_cast]
        | none =>
          cases hf : env.fillTextErr with
          | none => simp [draw_text, ha, hd, htr, hr, hf, callFailure]
          | some e => simp [draw_text, ha, hd, htr, hr, hf, callFailure, error_cast]

/-- Witness for C9: with a failing translate whose stringification fails,
the rotated call errors with the "unknown" message. -/
theorem draw_text_error_iff_witness :
    (∃ ek, (draw_text ⟨some ⟨none⟩, none, none⟩ "hi" sampleRotStyle (3, 4)).1 =
      Except.error ek) ∧
    (∀ ek, (draw_text ⟨some ⟨none⟩, none, none⟩ "hi" sampleRotStyle (3, 4)).1 =
        Except.error ek →
      ∃ e, (∃ c ∈ (draw_text ⟨some ⟨none⟩, none, none⟩ "hi" sampleRotStyle (3, 4)).2,
          callFailure c = some e) ∧
        ek = DrawingErrorKind.DrawingError ⟨Option.getD e.stringify "unknown"⟩) := by
  have h := draw_text_error_iff ⟨some ⟨none⟩, none, none⟩ "hi" sampleRotStyle (3, 4)
  refine ⟨h.1.mpr ?_, h.2⟩
  norm_num [draw_text, sampleRotStyle, sampleColor, draw_text_angle_coeff,
    transformDegrees, callFailure]
  decide

/-- Claim C10: in a rotated draw_text call (transform not None, non-zero
alpha) where one of translate, rotate or fill_text fails, the call errors
after save() was made and restore() is never called: the error propagates
with the context still in its saved, partially transformed state. -/
theorem draw_text_not_atomic_on_error (env : CtxEnv) (text : String)
    (ts : TextStyle) (pos : Int × Int)
    (ha : ts.color.alpha ≠ 0) (ht : ts.transform ≠ FontTransform.None)
    (hfail : env.translateErr ≠ none ∨ env.rotateErr ≠ none ∨
      env.fillTextErr ≠ none) :
    (∃ ek, (draw_text env text ts pos).1 = Except.error ek) ∧
    CanvasCall.save ∈ (draw_text env text ts pos).2 ∧
    CanvasCall.restore ∉ (draw_text env text ts pos).2 := by
  have hd : draw_text_angle_coeff ts.transform ≠ 0 :=
    angle_coeff_ne_zero ts.transform ht
  cases htr : env.translateErr with
  | some e => simp [draw_text, ha, hd, htr]
  | none =>
    cases hr : env.rotateErr with
    | some e => simp [draw_text, ha, hd, htr, hr]
    | none =>
      cases hf : env.fillTextErr with
      | some e => simp [draw_text, ha, hd, htr, hr, hf]
      | none =>
        rcases hfail with h | h | h <;> simp_all

/-- Witness for C10: a Rotate90 draw whose rotate call fails leaves save
unbalanced. -/
theorem draw_text_not_atomic_on_error_witness :
    (∃ ek, (draw_text ⟨none, some ⟨some "boom"⟩, none⟩ "hi" sampleRotStyle (3, 4)).1 =
      Except.error ek) ∧
    CanvasCall.save ∈
      (draw_text ⟨none, some ⟨some "boom"⟩, none⟩ "hi" sampleRotStyle (3, 4)).2 ∧
    CanvasCall.restore ∉
      (draw_text ⟨none, some ⟨some "boom"⟩, none⟩ "hi" sampleRotStyle (3, 4)).2 :=
  draw_text_not_atomic_on_error ⟨none, some ⟨some "boom"⟩, none⟩ "hi" sampleRotStyle
    (3, 4) (by norm_num [sampleRotStyle, sampleColor]) (by decide)
    (Or.inr (Or.inl (by decide)))

end PlottersOffscreen

namespace PlottersOffscreen

/-- A drawing operation never touches the canvas binding of the backend. -/
theorem applyOp_canvas (b : OffscreenCanvasBackend) (op : DrawOp) :
    (applyOp b op).canvas = b.canvas := by
  cases op <;> rfl

/-- Claim C7: get_size returns the pair (canvas width, canvas height) of the
bound surface, is a pure function of the backend state, and its result is
unchanged by any prior sequence of draw_pixel, draw_line or draw_text
calls. -/
theorem get_size_pure_and_stable (b : OffscreenCanvasBackend)
    (ops : List DrawOp) :
    get_size b = (b.canvas.width, b.canvas.height) ∧
    get_size (List.foldl applyOp b ops) = get_size b := by
  refine ⟨rfl, ?_⟩
  induction ops generalizing b with
  | nil => rfl
  | cons op rest ih =>
    rw [List.foldl_cons, ih (applyOp b op)]
    simp [get_size, applyOp_canvas]

/-- Claim C8: OffscreenCanvasBackend.new returns none exactly when the "2d"
context acquisition fails, is absent, or the downcast fails; otherwise it
returns some backend holding the given canvas and the freshly derived
context — never a partially initialized backend. -/
theorem new_context_acquisition (c : OffscreenCanvas) :
    (OffscreenCanvasBackend.new c = none ↔
      c.context2d ≠ GetContextOutcome.obj true) ∧
    (c.context2d = GetContextOutcome.obj true →
      OffscreenCanvasBackend.new c = some ⟨c, []⟩) := by
  rcases c with ⟨w, h, ctx⟩
  cases ctx with
  | err => simp [OffscreenCanvasBackend.new, init_backend]
  | missing => simp [OffscreenCanvasBackend.new, init_backend]
  | obj b => cases b <;> simp [OffscreenCanvasBackend.new, init_backend]

/-- Witness for C8: a 100×100 canvas with a working 2d context yields a
fully initialized backend; one whose get_context errors yields none. -/
theorem new_context_acquisition_witness :
    OffscreenCanvasBackend.new ⟨100, 100, GetContextOutcome.obj true⟩ =
      some ⟨⟨100, 100, GetContextOutcome.obj true⟩, []⟩ ∧
    OffscreenCanvasBackend.new ⟨100, 100, GetContextOutcome.err⟩ = none :=
  ⟨(new_context_acquisition ⟨100, 100, GetContextOutcome.obj true⟩).2 rfl,
   (new_context_acquisition ⟨100, 100, GetContextOutcome.err⟩).1.mpr (by decide)⟩

end PlottersOffscreen
